import Mathlib

/-!
Shallow embedding of the tasks-frontend validation layer
(src/lib/validation.ts), the per-user in-memory data store
(src/lib/dataStore.ts) and the thin API endpoint handlers that connect
them.  JS strings are modelled as Lean strings (lists of characters),
JSON-decoded request bodies as the inductive type JsValue, and each
TypeScript function as a Lean function of the same name.
-/

namespace Tasks

/-! ## JavaScript string primitives -/

/-- Whitespace as used by JS string trim and the regex class \s
(ASCII portion, which is all the code and inputs here exercise). -/
def jsIsSpace (c : Char) : Bool :=
  c = ' ' || c = '\t' || c = '\n' || c = '\r' || c = '\x0b' || c = '\x0c'

/-- Word characters of the JS regex class \w : [A-Za-z0-9_]. -/
def jsIsWord (c : Char) : Bool :=
  c.isAlpha || c.isDigit || c = '_'

/-- Lower-casing of ASCII letters, for the case-insensitive regex flags. -/
def lowerAscii (c : Char) : Char :=
  if 'A' ≤ c ∧ c ≤ 'Z' then Char.ofNat (c.toNat + 32) else c

/-- List-level JS String.prototype.trim: drop whitespace at both ends. -/
def trimL (l : List Char) : List Char :=
  ((l.dropWhile jsIsSpace).reverse.dropWhile jsIsSpace).reverse

/-- JS trim on strings. -/
def jsTrim (s : String) : String := ⟨trimL s.data⟩

/-- JS slice of a string from index 0 to maxLength. -/
def jsSlice (s : String) (maxLength : Nat) : String := ⟨s.data.take maxLength⟩

/-! ## Regex testers used by validation.ts -/

/-- Hex digit of the regex class [0-9A-Fa-f]. -/
def isHexC (c : Char) : Bool :=
  c.isDigit || ('a' ≤ c ∧ c ≤ 'f') || ('A' ≤ c ∧ c ≤ 'F')

/-- Character class [a-zA-Z0-9_-] of SAFE_ID_REGEX. -/
def isIdChar (c : Char) : Bool :=
  c.isAlpha || c.isDigit || c = '_' || c = '-'

/-- Test for SAFE_ID_REGEX = ^[a-zA-Z0-9_-]+$ . -/
def safeIdTest (s : String) : Bool :=
  !s.data.isEmpty && s.data.all isIdChar

/-- Character check at position i of the 36-character UUID pattern
^[0-9a-f]\x7b8\x7d-[0-9a-f]\x7b4\x7d-[1-5][0-9a-f]\x7b3\x7d-[89ab][0-9a-f]\x7b3\x7d-[0-9a-f]\x7b12\x7d$
with the i (case-insensitive) flag. -/
def uuidCharOk (i : Nat) (c : Char) : Bool :=
  if i = 8 ∨ i = 13 ∨ i = 18 ∨ i = 23 then c = '-'
  else if i = 14 then '1' ≤ c ∧ c ≤ '5'
  else if i = 19 then
    c = '8' || c = '9' || c = 'a' || c = 'b' || c = 'A' || c = 'B'
  else isHexC c

/-- Test for the UUID regex (isValidUUID in validation.ts). -/
def isValidUUID (s : String) : Bool :=
  s.data.length = 36 &&
    (List.range 36).all (fun i => uuidCharOk i (s.data.getD i ' '))

/-- Test for HEX_COLOR_REGEX = ^#[0-9A-Fa-f]\x7b6\x7d$ . -/
def hexColorTest (s : String) : Bool :=
  match s.data with
  | '#' :: rest => rest.length = 6 && rest.all isHexC
  | _ => false

/-- Character check at position i of the fixed part of ISO_DATE_REGEX
^\d\x7b4\x7d-\d\x7b2\x7d-\d\x7b2\x7dT\d\x7b2\x7d:\d\x7b2\x7d:\d\x7b2\x7d(\.\d\x7b3\x7d)?Z$ . -/
def isoCharOk (i : Nat) (c : Char) : Bool :=
  if i = 4 ∨ i = 7 then c = '-'
  else if i = 10 then c = 'T'
  else if i = 13 ∨ i = 16 then c = ':'
  else c.isDigit

/-- Test for ISO_DATE_REGEX: length 20 without or 24 with milliseconds. -/
def isoDateTest (s : String) : Bool :=
  let l := s.data
  (l.length = 20 && (List.range 19).all (fun i => isoCharOk i (l.getD i ' '))
      && l.getD 19 ' ' = 'Z') ||
  (l.length = 24 && (List.range 19).all (fun i => isoCharOk i (l.getD i ' '))
      && l.getD 19 ' ' = '.'
      && (l.getD 20 ' ').isDigit && (l.getD 21 ' ').isDigit
      && (l.getD 22 ' ').isDigit && l.getD 23 ' ' = 'Z')

/-! ## The two denylist regexes of sanitizeString

Each matcher takes a suffix of the input and, when the regex matches at
the head of that suffix, returns the total length of the (deterministic,
greedy) match.  Global replacement with the empty string is then a
single left-to-right pass that deletes each non-overlapping match. -/

/-- Match of on\w+\s*= (flags gi) at the head of the list: letters o n
(case-insensitive), one or more word characters, optional whitespace,
then the equals sign.  Returns the match length. -/
def evtMatchAt (l : List Char) : Option Nat :=
  match l with
  | c₀ :: c₁ :: rest =>
    if lowerAscii c₀ = 'o' ∧ lowerAscii c₁ = 'n' then
      let w := rest.takeWhile jsIsWord
      if w.isEmpty then none
      else
        let afterW := rest.dropWhile jsIsWord
        let sp := afterW.takeWhile jsIsSpace
        match afterW.dropWhile jsIsSpace with
        | '=' :: _ => some (2 + w.length + sp.length + 1)
        | _ => none
    else none
  | _ => none

/-- Case-insensitive test that pat is a prefix of l. -/
def ciPre (pat : List Char) (l : List Char) : Bool :=
  pat.isPrefixOf (l.take pat.length |>.map lowerAscii)

/-- Scan helper for the script-tag regex: after the opening tag, consume
runs of non-< characters and < signs that do not open the literal
closing tag, until the closing tag </script> (case-insensitive) is
reached.  Returns the number of characters consumed up to and including
the closing tag, or none when no closing tag follows. -/
def scriptScan : List Char → Option Nat
  | [] => none
  | '<' :: rest =>
    if ciPre "/script>".data rest then some 9
    else (scriptScan rest).map (· + 1)
  | _ :: rest => (scriptScan rest).map (· + 1)

/-- Match of the regex <script\b[^<]*(?:(?!<\/script>)<[^<]*)*<\/script>
(flags gi) at the head of the list.  Requires the literal opening
<script (case-insensitive), a word boundary after the t, and a later
closing </script>; the match extends to the first such closing tag. -/
def scriptMatchAt (l : List Char) : Option Nat :=
  if ciPre "<script".data l then
    let rest := l.drop 7
    match rest with
    | [] => none
    | c :: _ =>
      if jsIsWord c then none
      else (scriptScan rest).map (· + 7)
  else none

/-- Single pass of a global regex replacement by the empty string, with
fuel (the input length suffices: every step consumes at least one
character).  At each position the matcher is tried; a match of length
k+1 is deleted and scanning resumes after it, otherwise the character is
kept. -/
def stripGo (m : List Char → Option Nat) : Nat → List Char → List Char
  | _, [] => []
  | 0, l => l
  | Nat.succ fuel, c :: cs =>
    match m (c :: cs) with
    | some (Nat.succ k) => stripGo m fuel (cs.drop k)
    | _ => c :: stripGo m fuel cs

/-- Global replace of every match of m by the empty string. -/
def stripAll (m : List Char → Option Nat) (l : List Char) : List Char :=
  stripGo m l.length l

/-- Core of sanitizeString on an actual string: trim, slice to
maxLength, then delete script-tag matches and event-handler matches. -/
def sanitizeStringCore (s : String) (maxLength : Nat) : String :=
  ⟨stripAll evtMatchAt (stripAll scriptMatchAt ((jsTrim s).data.take maxLength))⟩

/-! ## JSON-decoded JavaScript values -/

/-- Model of a JSON-decoded JS value as received by the handlers. -/
inductive JsValue where
  | null : JsValue
  | undefinedVal : JsValue
  | bool : Bool → JsValue
  | num : Int → JsValue
  | str : String → JsValue
  | arr : List JsValue → JsValue
  | obj : List (String × JsValue) → JsValue
deriving Repr

/-- JS truthiness of a value. -/
def jsTruthy : JsValue → Bool
  | .null => false
  | .undefinedVal => false
  | .bool b => b
  | .num n => n ≠ 0
  | .str s => s ≠ ""
  | .arr _ => true
  | .obj _ => true

/-- Test of typeof v === "object" (true for null, arrays and objects). -/
def jsTypeofObject : JsValue → Bool
  | .null => true
  | .arr _ => true
  | .obj _ => true
  | _ => false

/-- Property read v.key; on duplicate keys JSON.parse keeps the last
occurrence, so the lookup scans from the right.  Missing properties and
non-object values read as undefined. -/
def jsGet (v : JsValue) (key : String) : JsValue :=
  match v with
  | .obj fields =>
    match fields.reverse.find? (fun kv => kv.1 = key) with
    | some kv => kv.2
    | none => .undefinedVal
  | _ => .undefinedVal

/-- Test of the JS in operator: key present on the object. -/
def jsHasKey (v : JsValue) (key : String) : Bool :=
  match v with
  | .obj fields => fields.any (fun kv => kv.1 = key)
  | _ => false

/-- Array.isArray. -/
def jsIsArray : JsValue → Bool
  | .arr _ => true
  | _ => false

/-- Elements of an array value (empty for non-arrays). -/
def jsElems : JsValue → List JsValue
  | .arr xs => xs
  | _ => []

/-- Test of v === null. -/
def jsIsNull : JsValue → Bool
  | .null => true
  | _ => false

/-- Test of v === null || v === undefined. -/
def jsIsNullOrUndef : JsValue → Bool
  | .null => true
  | .undefinedVal => true
  | _ => false

/-- Test of v === s for a string literal s. -/
def jsEqStr (v : JsValue) (s : String) : Bool :=
  match v with
  | .str x => x = s
  | _ => false

/-- Test of typeof v === "number". -/
def jsIsNum : JsValue → Bool
  | .num _ => true
  | _ => false

/-- Numeric content of a value (only read after a jsIsNum check). -/
def jsAsInt : JsValue → Int
  | .num n => n
  | _ => 0

/-! ## Domain entities (shape dictated by their use in validation.ts
and dataStore.ts; the declaring types module is UI-side) -/

structure Todo where
  id : String
  title : String
  completed : Bool
  categoryId : Option String
  tags : List String
  createdAt : String
  updatedAt : String
deriving Repr, DecidableEq

structure Category where
  id : String
  name : String
  icon : String
  color : String
deriving Repr, DecidableEq

structure Tag where
  id : String
  name : String
  color : String
deriving Repr, DecidableEq

structure TodoState where
  todos : List Todo
  categories : List Category
  tags : List Tag
deriving Repr, DecidableEq

/-- Result shape of every validator in validation.ts. -/
structure ValidationResult (α : Type) where
  valid : Bool
  data : Option α
  errors : List String
deriving Repr, DecidableEq

/-! ## Field validators of validation.ts -/

def MAX_TITLE_LENGTH : Nat := 500
def MAX_NAME_LENGTH : Nat := 100
def MAX_ICON_LENGTH : Nat := 50
def MAX_ID_LENGTH : Nat := 100
def MAX_TODOS : Nat := 10000
def MAX_CATEGORIES : Nat := 100
def MAX_TAGS : Nat := 100
def MAX_TAGS_PER_TODO : Nat := 20

/-- JS falsiness of a string-or-null result, as used by checks of the
form !x and !x || x.length === 0 (both are equivalent on these
results). -/
def strFalsy : Option String → Bool
  | none => true
  | some s => s = ""

/-- Source sanitizeString: non-strings become null; strings are trimmed,
sliced to maxLength and run through the two denylist replacements. -/
def sanitizeString (v : JsValue) (maxLength : Nat) : Option String :=
  match v with
  | .str s => some (sanitizeStringCore s maxLength)
  | _ => none

/-- Source validateId: trim, slice to MAX_ID_LENGTH, then require the
safe-id charset or a canonical UUID. -/
def validateId (v : JsValue) : Option String :=
  match v with
  | .str s =>
    let sanitized := jsSlice (jsTrim s) MAX_ID_LENGTH
    if !safeIdTest sanitized && !isValidUUID sanitized then none
    else some sanitized
  | _ => none

/-- Source validateColor: strict #RRGGBB only. -/
def validateColor (v : JsValue) : Option String :=
  match v with
  | .str s =>
    let trimmed := jsTrim s
    if !hexColorTest trimmed then none else some trimmed
  | _ => none

/-- Source validateISODate.  The fallback general date parse (the JS
Date constructor followed by toISOString) is an external builtin and is
passed in as dateParse, returning none where the Date would be invalid. -/
def validateISODate (dateParse : String → Option String) (v : JsValue) :
    Option String :=
  match v with
  | .str s =>
    let trimmed := jsTrim s
    if !isoDateTest trimmed then dateParse trimmed
    else some trimmed
  | _ => none

/-- Model of the JS expression x || now used for the date defaults. -/
def jsOrElse (o : Option String) (d : String) : String :=
  match o with
  | some s => if s = "" then d else s
  | none => d

/-! ## Entity validators -/

/-- Source validateTodo. -/
def validateTodo (dateParse : String → Option String) (now : String)
    (todo : JsValue) : ValidationResult Todo :=
  if !jsTruthy todo || !jsTypeofObject todo then
    ⟨false, none, ["Todo must be an object"]⟩
  else
    let id := validateId (jsGet todo "id")
    let e₁ : List String := if strFalsy id then ["Invalid or missing todo ID"] else []
    let title := sanitizeString (jsGet todo "title") MAX_TITLE_LENGTH
    let e₂ : List String :=
      if strFalsy title then ["Invalid or missing todo title"] else []
    let completed : Bool :=
      match jsGet todo "completed" with
      | .bool b => b
      | _ => false
    let cv := jsGet todo "categoryId"
    let categoryId : Option String :=
      if !jsIsNullOrUndef cv then validateId cv else none
    let e₃ : List String :=
      if !jsIsNullOrUndef cv ∧ categoryId = none ∧ !jsIsNull cv then
        ["Invalid category ID format"]
      else []
    let tags : List String :=
      if jsIsArray (jsGet todo "tags") then
        ((jsElems (jsGet todo "tags")).take MAX_TAGS_PER_TODO).filterMap validateId
      else []
    let createdAt := jsOrElse (validateISODate dateParse (jsGet todo "createdAt")) now
    let updatedAt := jsOrElse (validateISODate dateParse (jsGet todo "updatedAt")) now
    let errors := e₁ ++ e₂ ++ e₃
    if errors ≠ [] then ⟨false, none, errors⟩
    else
      ⟨true,
       some ⟨id.getD "", title.getD "", completed, categoryId, tags,
             createdAt, updatedAt⟩,
       []⟩

/-- Source validateCategory. -/
def validateCategory (category : JsValue) : ValidationResult Category :=
  if !jsTruthy category || !jsTypeofObject category then
    ⟨false, none, ["Category must be an object"]⟩
  else
    let id := validateId (jsGet category "id")
    let e₁ : List String :=
      if strFalsy id then ["Invalid or missing category ID"] else []
    let name := sanitizeString (jsGet category "name") MAX_NAME_LENGTH
    let e₂ : List String :=
      if strFalsy name then ["Invalid or missing category name"] else []
    let icon := sanitizeString (jsGet category "icon") MAX_ICON_LENGTH
    let e₃ : List String :=
      if strFalsy icon then ["Invalid or missing category icon"] else []
    let color := validateColor (jsGet category "color")
    let e₄ : List String :=
      if color = none then
        ["Invalid or missing category color (must be hex format #RRGGBB)"]
      else []
    let errors := e₁ ++ e₂ ++ e₃ ++ e₄
    if errors ≠ [] then ⟨false, none, errors⟩
    else ⟨true, some ⟨id.getD "", name.getD "", icon.getD "", color.getD ""⟩, []⟩

/-- Source validateTag. -/
def validateTag (tag : JsValue) : ValidationResult Tag :=
  if !jsTruthy tag || !jsTypeofObject tag then
    ⟨false, none, ["Tag must be an object"]⟩
  else
    let id := validateId (jsGet tag "id")
    let e₁ : List String :=
      if strFalsy id then ["Invalid or missing tag ID"] else []
    let name := sanitizeString (jsGet tag "name") MAX_NAME_LENGTH
    let e₂ : List String :=
      if strFalsy name then ["Invalid or missing tag name"] else []
    let color := validateColor (jsGet tag "color")
    let e₃ : List String :=
      if color = none then
        ["Invalid or missing tag color (must be hex format #RRGGBB)"]
      else []
    let errors := e₁ ++ e₂ ++ e₃
    if errors ≠ [] then ⟨false, none, errors⟩
    else ⟨true, some ⟨id.getD "", name.getD "", color.getD ""⟩, []⟩

/-! ## Bulk state validation -/

/-- Per-item loop of validateTodoState: each valid item is collected,
each invalid one contributes the warning
label at index i: joined item errors. -/
def collectLoop (f : JsValue → ValidationResult α) (label : String) :
    Nat → List JsValue → List α × List String
  | _, [] => ([], [])
  | i, x :: xs =>
    let r := f x
    let rest := collectLoop f label (i + 1) xs
    match r.valid, r.data with
    | true, some d => (d :: rest.1, rest.2)
    | _, _ =>
      (rest.1,
       (label ++ " at index " ++ toString i ++ ": " ++
          String.intercalate ", " r.errors) :: rest.2)

/-- Cross-reference fix of validateTodoState: an unresolved categoryId
becomes null and unresolved tag entries are dropped. -/
def crossFix (categoryIds tagIds : List String) (todo : Todo) : Todo :=
  { todo with
    categoryId :=
      match todo.categoryId with
      | some c => if categoryIds.contains c then some c else none
      | none => none
    tags := todo.tags.filter (fun tagId => tagIds.contains tagId) }

/-- Source validateTodoState.  A missing or non-array collection yields
no items and no warnings, exactly as the Array.isArray guards do. -/
def validateTodoState (dateParse : String → Option String) (now : String)
    (state : JsValue) : ValidationResult TodoState :=
  if !jsTruthy state || !jsTypeofObject state then
    ⟨false, none, ["State must be an object"]⟩
  else
    let todosRes :=
      collectLoop (validateTodo dateParse now) "Todo" 0
        ((jsElems (jsGet state "todos")).take MAX_TODOS)
    let categoriesRes :=
      collectLoop validateCategory "Category" 0
        ((jsElems (jsGet state "categories")).take MAX_CATEGORIES)
    let tagsRes :=
      collectLoop validateTag "Tag" 0
        ((jsElems (jsGet state "tags")).take MAX_TAGS)
    let categoryIds := categoriesRes.1.map (·.id)
    let tagIds := tagsRes.1.map (·.id)
    let crossValidatedTodos := todosRes.1.map (crossFix categoryIds tagIds)
    ⟨true,
     some ⟨crossValidatedTodos, categoriesRes.1, tagsRes.1⟩,
     todosRes.2 ++ categoriesRes.2 ++ tagsRes.2⟩

/-! ## API-input validators -/

structure NewTodoInput where
  title : String
  categoryId : Option String
  tags : List String
deriving Repr, DecidableEq

/-- Source validateNewTodoInput.  Note that an ill-formed categoryId is
silently nulled here (no error is pushed) and tags are only
format-checked; neither is checked for existence. -/
def validateNewTodoInput (input : JsValue) : ValidationResult NewTodoInput :=
  if !jsTruthy input || !jsTypeofObject input then
    ⟨false, none, ["Input must be an object"]⟩
  else
    let title := sanitizeString (jsGet input "title") MAX_TITLE_LENGTH
    let e₁ : List String :=
      if strFalsy title then ["Title is required and must be a non-empty string"]
      else []
    let cv := jsGet input "categoryId"
    let categoryId : Option String :=
      if !jsIsNullOrUndef cv then validateId cv else none
    let tags : List String :=
      if jsIsArray (jsGet input "tags") then
        ((jsElems (jsGet input "tags")).take MAX_TAGS_PER_TODO).filterMap validateId
      else []
    if e₁ ≠ [] then ⟨false, none, e₁⟩
    else ⟨true, some ⟨title.getD "", categoryId, tags⟩, []⟩

/-- Validated field set of an update request (the possible fields of the
TS value of type partial Todo that validateUpdateTodoInput builds). -/
structure TodoUpdate where
  title : Option String
  completed : Option Bool
  categoryId : Option (Option String)
  tags : Option (List String)
deriving Repr, DecidableEq

/-- Update with no fields set. -/
def TodoUpdate.empty : TodoUpdate := ⟨none, none, none, none⟩

/-- Source validateUpdateTodoInput. -/
def validateUpdateTodoInput (input : JsValue) : ValidationResult TodoUpdate :=
  if !jsTruthy input || !jsTypeofObject input then
    ⟨false, none, ["Input must be an object"]⟩
  else
    let p₁ : Option String × List String :=
      if jsHasKey input "title" then
        let title := sanitizeString (jsGet input "title") MAX_TITLE_LENGTH
        if strFalsy title then (none, ["Title must be a non-empty string"])
        else (title, [])
      else (none, [])
    let p₂ : Option Bool × List String :=
      if jsHasKey input "completed" then
        match jsGet input "completed" with
        | .bool b => (some b, [])
        | _ => (none, ["Completed must be a boolean"])
      else (none, [])
    let p₃ : Option (Option String) × List String :=
      if jsHasKey input "categoryId" then
        if jsIsNull (jsGet input "categoryId") then (some none, [])
        else
          match validateId (jsGet input "categoryId") with
          | none => (none, ["Invalid category ID format"])
          | some c => (some (some c), [])
      else (none, [])
    let p₄ : Option (List String) × List String :=
      if jsHasKey input "tags" then
        if !jsIsArray (jsGet input "tags") then
          (none, ["Tags must be an array"])
        else
          (some (((jsElems (jsGet input "tags")).take MAX_TAGS_PER_TODO).filterMap
              validateId),
           [])
      else (none, [])
    let errors := p₁.2 ++ p₂.2 ++ p₃.2 ++ p₄.2
    if errors ≠ [] then ⟨false, none, errors⟩
    else ⟨true, some ⟨p₁.1, p₂.1, p₃.1, p₄.1⟩, []⟩

structure NewCategoryInput where
  name : String
  icon : String
  color : String
deriving Repr, DecidableEq

/-- Source validateNewCategoryInput. -/
def validateNewCategoryInput (input : JsValue) : ValidationResult NewCategoryInput :=
  if !jsTruthy input || !jsTypeofObject input then
    ⟨false, none, ["Input must be an object"]⟩
  else
    let name := sanitizeString (jsGet input "name") MAX_NAME_LENGTH
    let e₁ : List String :=
      if strFalsy name then ["Name is required and must be a non-empty string"]
      else []
    let icon := sanitizeString (jsGet input "icon") MAX_ICON_LENGTH
    let e₂ : List String :=
      if strFalsy icon then ["Icon is required and must be a non-empty string"]
      else []
    let color := validateColor (jsGet input "color")
    let e₃ : List String :=
      if color = none then ["Color is required and must be in hex format (#RRGGBB)"]
      else []
    let errors := e₁ ++ e₂ ++ e₃
    if errors ≠ [] then ⟨false, none, errors⟩
    else ⟨true, some ⟨name.getD "", icon.getD "", color.getD ""⟩, []⟩

structure NewTagInput where
  name : String
  color : String
deriving Repr, DecidableEq

/-- Source validateNewTagInput. -/
def validateNewTagInput (input : JsValue) : ValidationResult NewTagInput :=
  if !jsTruthy input || !jsTypeofObject input then
    ⟨false, none, ["Input must be an object"]⟩
  else
    let name := sanitizeString (jsGet input "name") MAX_NAME_LENGTH
    let e₁ : List String :=
      if strFalsy name then ["Name is required and must be a non-empty string"]
      else []
    let color := validateColor (jsGet input "color")
    let e₂ : List String :=
      if color = none then ["Color is required and must be in hex format (#RRGGBB)"]
      else []
    let errors := e₁ ++ e₂
    if errors ≠ [] then ⟨false, none, errors⟩
    else ⟨true, some ⟨name.getD "", color.getD ""⟩, []⟩

/-! ## Per-user data store (dataStore.ts)

The module-level map is keyed by user identifier and every operation
reads and writes only the entry of the one user it is given, so each
operation is modelled as a pure function on that user's UserData
record. -/

structure UserData where
  todos : List Todo
  categories : List Category
  tags : List Tag
  migrated : Bool
deriving Repr, DecidableEq

/-- Shape of the TS value of type partial UserData taken by setUserData. -/
structure UserDataPatch where
  todos : Option (List Todo)
  categories : Option (List Category)
  tags : Option (List Tag)
  migrated : Option Bool
deriving Repr, DecidableEq

/-- Source getDefaultUserData, parametric in the two built-in default
collections (DEFAULT_CATEGORIES and DEFAULT_TAGS live in the UI-side
types module). -/
def getDefaultUserData (defaultCategories : List Category)
    (defaultTags : List Tag) : UserData :=
  ⟨[], defaultCategories, defaultTags, false⟩

/-- Source setUserData: shallow merge of the patch over current data. -/
def setUserData (d : UserData) (p : UserDataPatch) : UserData :=
  ⟨p.todos.getD d.todos, p.categories.getD d.categories,
   p.tags.getD d.tags, p.migrated.getD d.migrated⟩

/-- Source addUserTodo: prepend. -/
def addUserTodo (d : UserData) (todo : Todo) : Todo × UserData :=
  (todo, { d with todos := todo :: d.todos })

/-- Merge of the validated update fields over an existing todo with the
updatedAt stamp, i.e. the spread expression of updateUserTodo. -/
def applyUpdate (t : Todo) (u : TodoUpdate) (now : String) : Todo :=
  { id := t.id
    title := u.title.getD t.title
    completed := u.completed.getD t.completed
    categoryId := u.categoryId.getD t.categoryId
    tags := u.tags.getD t.tags
    createdAt := t.createdAt
    updatedAt := now }

/-- Source updateUserTodo: find the first todo with the id, merge the
updates over it in place, or report not-found as null. -/
def updateUserTodo (d : UserData) (todoId : String) (updates : TodoUpdate)
    (now : String) : Option Todo × UserData :=
  let todoIndex := d.todos.findIdx (fun t => t.id == todoId)
  if h : todoIndex < d.todos.length then
    let merged := applyUpdate (d.todos.get ⟨todoIndex, h⟩) updates now
    (some merged, { d with todos := d.todos.set todoIndex merged })
  else (none, d)

/-- Source deleteUserTodo. -/
def deleteUserTodo (d : UserData) (todoId : String) : Bool × UserData :=
  let newTodos := d.todos.filter (fun t => !(t.id == todoId))
  (decide (newTodos.length < d.todos.length), { d with todos := newTodos })

/-- Clamp of a splice start argument: negative values count from the
end (bounded below by 0), positive ones are bounded by the length. -/
def spliceIndex (start : Int) (len : Nat) : Nat :=
  if start < 0 then ((len : Int) + start).toNat else min start.toNat len

/-- Value of the reorder computation in reorderUserTodos:
newTodos.splice(fromIndex, 1) removes at most one element and its
destructured first element (undefined when nothing was removed) is
re-inserted by newTodos.splice(toIndex, 0, removed).  The resulting JS
array can therefore hold an undefined entry, modelled as none. -/
def jsReorder (xs : List α) (fromIndex toIndex : Int) : List (Option α) :=
  let i := spliceIndex fromIndex xs.length
  let removed := xs.get? i
  let rest := xs.take i ++ xs.drop (i + 1)
  let j := spliceIndex toIndex rest.length
  (rest.map some).take j ++ removed :: (rest.map some).drop j

/-- Source reorderUserTodos: the jsReorder array is both stored and
returned.  A List Todo cannot hold the undefined entry that an
out-of-range fromIndex produces, so the stored model keeps the defined
elements; theorems about the out-of-range array use jsReorder itself,
which is the exact value assigned to userData.todos and returned. -/
def reorderUserTodos (d : UserData) (fromIndex toIndex : Int) :
    List (Option Todo) × UserData :=
  let newTodos := jsReorder d.todos fromIndex toIndex
  (newTodos, { d with todos := newTodos.filterMap id })

/-- Source addUserCategory: append. -/
def addUserCategory (d : UserData) (category : Category) : Category × UserData :=
  (category, { d with categories := d.categories ++ [category] })

/-- Source deleteUserCategory: filter the category out and null every
matching categoryId on the todos. -/
def deleteUserCategory (d : UserData) (categoryId : String) : Bool × UserData :=
  let newCategories := d.categories.filter (fun c => !(c.id == categoryId))
  let newTodos := d.todos.map (fun todo =>
    if todo.categoryId == some categoryId then { todo with categoryId := none }
    else todo)
  (decide (newCategories.length < d.categories.length),
   { d with categories := newCategories, todos := newTodos })

/-- Source addUserTag: append. -/
def addUserTag (d : UserData) (tag : Tag) : Tag × UserData :=
  (tag, { d with tags := d.tags ++ [tag] })

/-- Source deleteUserTag: filter the tag out of the tag collection and
out of every todo's tag list. -/
def deleteUserTag (d : UserData) (tagId : String) : Bool × UserData :=
  let newTags := d.tags.filter (fun t => !(t.id == tagId))
  let newTodos := d.todos.map (fun todo =>
    { todo with tags := todo.tags.filter (fun t => !(t == tagId)) })
  (decide (newTags.length < d.tags.length),
   { d with tags := newTags, todos := newTodos })

/-- Source hasUserMigrated. -/
def hasUserMigrated (d : UserData) : Bool := d.migrated

/-- Source setUserMigrated. -/
def setUserMigrated (d : UserData) : UserData := { d with migrated := true }

/-- Source importUserData: wholesale replacement of the three
collections plus the migrated flag set. -/
def importUserData (d : UserData) (data : TodoState) : UserData :=
  { d with
    todos := data.todos
    categories := data.categories
    tags := data.tags
    migrated := true }

/-! ## Endpoint handlers (the authenticated-user bodies of the route
files; the 401 path of an absent session leaves the store untouched and
is outside the per-user model) -/

/-- Response bodies the handlers produce. -/
inductive RespBody where
  | empty : RespBody
  | msg : String → RespBody
  | todoVal : Todo → RespBody
  | todosArr : List (Option Todo) → RespBody
  | categoryVal : Category → RespBody
  | tagVal : Tag → RespBody
  | dataVal : UserData → RespBody
  | migrateOk : Nat → Nat → Nat → List String → RespBody
deriving Repr

structure Resp where
  status : Nat
  body : RespBody
deriving Repr

/-- GET /api/data. -/
def dataGet (d : UserData) : Resp × UserData :=
  (⟨200, .dataVal d⟩, d)

/-- POST /api/data: the migration endpoint, guarded by hasUserMigrated. -/
def dataPost (dateParse : String → Option String) (now : String)
    (d : UserData) (body : JsValue) : Resp × UserData :=
  if hasUserMigrated d then
    (⟨400, .msg "Data already migrated"⟩, d)
  else
    let validationResult := validateTodoState dateParse now body
    match validationResult.data with
    | none => (⟨400, .msg "Invalid data format"⟩, d)
    | some payload =>
      let userData := importUserData d payload
      (⟨200,
        .migrateOk userData.todos.length userData.categories.length
          userData.tags.length validationResult.errors⟩,
       userData)

/-- GET /api/todos. -/
def todosGet (d : UserData) : Resp × UserData :=
  (⟨200, .todosArr (d.todos.map some)⟩, d)

/-- POST /api/todos: the reorder action forwards any two numbers to
reorderUserTodos unchecked; otherwise a new todo is created from the
validated input with a generated id (passed in as newId). -/
def todosPost (d : UserData) (body : JsValue) (newId now : String) :
    Resp × UserData :=
  if jsEqStr (jsGet body "action") "reorder" then
    if !jsIsNum (jsGet body "fromIndex") || !jsIsNum (jsGet body "toIndex") then
      (⟨400, .msg "Invalid reorder parameters"⟩, d)
    else
      let res := reorderUserTodos d (jsAsInt (jsGet body "fromIndex"))
        (jsAsInt (jsGet body "toIndex"))
      (⟨200, .todosArr res.1⟩, res.2)
  else
    let validationResult := validateNewTodoInput body
    match validationResult.data with
    | none => (⟨400, .msg "Validation failed"⟩, d)
    | some input =>
      let newTodo : Todo :=
        ⟨newId, input.title, false, input.categoryId, input.tags, now, now⟩
      let res := addUserTodo d newTodo
      (⟨201, .todoVal res.1⟩, res.2)

/-- GET /api/todos/id. -/
def todoGet (d : UserData) (id : String) : Resp × UserData :=
  match d.todos.find? (fun t => t.id == id) with
  | none => (⟨404, .msg "Todo not found"⟩, d)
  | some t => (⟨200, .todoVal t⟩, d)

/-- PUT /api/todos/id. -/
def todoPut (d : UserData) (id : String) (body : JsValue) (now : String) :
    Resp × UserData :=
  let validationResult := validateUpdateTodoInput body
  match validationResult.data with
  | none => (⟨400, .msg "Validation failed"⟩, d)
  | some updates =>
    let res := updateUserTodo d id updates now
    match res.1 with
    | none => (⟨404, .msg "Todo not found"⟩, res.2)
    | some t => (⟨200, .todoVal t⟩, res.2)

/-- DELETE /api/todos/id. -/
def todoDelete (d : UserData) (id : String) : Resp × UserData :=
  let res := deleteUserTodo d id
  if res.1 then (⟨200, .empty⟩, res.2)
  else (⟨404, .msg "Todo not found"⟩, res.2)

/-- GET /api/categories. -/
def categoriesGet (d : UserData) : Resp × UserData :=
  (⟨200, .empty⟩, d)

/-- POST /api/categories. -/
def categoriesPost (d : UserData) (body : JsValue) (newId : String) :
    Resp × UserData :=
  let validationResult := validateNewCategoryInput body
  match validationResult.data with
  | none => (⟨400, .msg "Validation failed"⟩, d)
  | some input =>
    let res := addUserCategory d ⟨newId, input.name, input.icon, input.color⟩
    (⟨201, .categoryVal res.1⟩, res.2)

/-- DELETE /api/categories/id. -/
def categoryDelete (d : UserData) (id : String) : Resp × UserData :=
  let res := deleteUserCategory d id
  if res.1 then (⟨200, .empty⟩, res.2)
  else (⟨404, .msg "Category not found"⟩, res.2)

/-- GET /api/tags. -/
def tagsGet (d : UserData) : Resp × UserData :=
  (⟨200, .empty⟩, d)

/-- POST /api/tags. -/
def tagsPost (d : UserData) (body : JsValue) (newId : String) :
    Resp × UserData :=
  let validationResult := validateNewTagInput body
  match validationResult.data with
  | none => (⟨400, .msg "Validation failed"⟩, d)
  | some input =>
    let res := addUserTag d ⟨newId, input.name, input.color⟩
    (⟨201, .tagVal res.1⟩, res.2)

/-- DELETE /api/tags/id. -/
def tagDelete (d : UserData) (id : String) : Resp × UserData :=
  let res := deleteUserTag d id
  if res.1 then (⟨200, .empty⟩, res.2)
  else (⟨404, .msg "Tag not found"⟩, res.2)

/-- One authenticated request against the endpoints that serve a user. -/
inductive ApiOp where
  | opDataGet : ApiOp
  | opDataPost : JsValue → ApiOp
  | opTodosGet : ApiOp
  | opTodosPost : JsValue → String → ApiOp
  | opTodoGet : String → ApiOp
  | opTodoPut : String → JsValue → ApiOp
  | opTodoDelete : String → ApiOp
  | opCategoriesGet : ApiOp
  | opCategoriesPost : JsValue → String → ApiOp
  | opCategoryDelete : String → ApiOp
  | opTagsGet : ApiOp
  | opTagsPost : JsValue → String → ApiOp
  | opTagDelete : String → ApiOp

/-- Dispatch of one request to its handler. -/
def apiStep (dateParse : String → Option String) (now : String)
    (d : UserData) : ApiOp → Resp × UserData
  | .opDataGet => dataGet d
  | .opDataPost body => dataPost dateParse now d body
  | .opTodosGet => todosGet d
  | .opTodosPost body newId => todosPost d body newId now
  | .opTodoGet id => todoGet d id
  | .opTodoPut id body => todoPut d id body now
  | .opTodoDelete id => todoDelete d id
  | .opCategoriesGet => categoriesGet d
  | .opCategoriesPost body newId => categoriesPost d body newId
  | .opCategoryDelete id => categoryDelete d id
  | .opTagsGet => tagsGet d
  | .opTagsPost body newId => tagsPost d body newId
  | .opTagDelete id => tagDelete d id

/-! ## Referential integrity -/

/-- Integrity of a todo list against category and tag collections:
every non-null categoryId and every tag entry resolves. -/
def refOk (todos : List Todo) (categories : List Category)
    (tags : List Tag) : Bool :=
  todos.all (fun t =>
    (match t.categoryId with
     | some c => categories.any (fun cat => cat.id == c)
     | none => true) &&
    t.tags.all (fun g => tags.any (fun tg => tg.id == g)))

/-- Integrity of a stored user state. -/
def refOkState (d : UserData) : Bool := refOk d.todos d.categories d.tags

/-- Integrity of a validated bulk payload. -/
def refOkPayload (p : TodoState) : Bool := refOk p.todos p.categories p.tags

/-! ## Observations used in the theorem statements -/

/-- Test whether some suffix of the list carries a match of the given
regex matcher, i.e. whether the corresponding pattern occurs as a
substring. -/
def containsMatchB (m : List Char → Option Nat) : List Char → Bool
  | [] => (m []).isSome
  | c :: cs => (m (c :: cs)).isSome || containsMatchB m (cs)

/-- Occurrence of an inline event-handler pattern on\w+\s*= in a string. -/
def containsEvt (s : String) : Bool := containsMatchB evtMatchAt s.data

/-- Occurrence of a script-tag-regex match in a string. -/
def containsScript (s : String) : Bool := containsMatchB scriptMatchAt s.data

/-! ## Concrete fixtures for witnesses and counterexamples -/

/-- Degenerate stand-in for the external general date parse: every
non-ISO string is an invalid Date. -/
def dateParse0 : String → Option String := fun _ => none

def now0 : String := "2024-01-01T00:00:00.000Z"

/-- Minimal well-formed todo value. -/
def mkTodo (id title : String) : Todo :=
  ⟨id, title, false, none, [], now0, now0⟩

/-- Request body of a valid new-todo creation whose categoryId has a
well-formed but nonexistent id. -/
def ghostBody : JsValue :=
  .obj [("title", .str "Buy milk"), ("categoryId", .str "ghost")]

/-- Fresh user state with no collections. -/
def emptyState : UserData := ⟨[], [], [], false⟩

/-- User state holding one todo whose categoryId dangles (reachable by
creating a todo with a well-formed unknown categoryId). -/
def danglingState : UserData :=
  ⟨[⟨"t1", "Buy milk", false, some "ghost", [], now0, now0⟩], [], [], false⟩

/-- Two-todo user state for the update witness. -/
def pairState : UserData := ⟨[mkTodo "a" "A", mkTodo "b" "B"], [], [], false⟩

/-- Update request setting only the title. -/
def titleUpd : TodoUpdate := ⟨some "B2", none, none, none⟩

/-- Todo object value for the bulk-import instance. -/
def jsTodoVal (id title : String) : JsValue :=
  .obj [("id", .str id), ("title", .str title)]

/-- Bulk-import state with one invalid todo (empty title) at index 0
and two valid todos. -/
def mixedImportState : JsValue :=
  .obj
    [("todos",
      .arr [.obj [("id", .str "t0"), ("title", .str "")],
            jsTodoVal "t1" "Buy milk", jsTodoVal "t2" "Walk dog"]),
     ("categories", .arr []),
     ("tags", .arr [])]

/-- Payload the bulk validation produces on mixedImportState. -/
def mixedPayload : TodoState :=
  ⟨[⟨"t1", "Buy milk", false, none, [], now0, now0⟩,
    ⟨"t2", "Walk dog", false, none, [], now0, now0⟩], [], []⟩

/-! # Theorems -/

/-! ## Lemmas about the single-pass denylist replacement -/

theorem stripGo_sublist (m : List Char → Option Nat) :
    ∀ (fuel : Nat) (l : List Char), (stripGo m fuel l).Sublist l := by
  intro fuel
  induction fuel with
  | zero => intro l; cases l <;> simp [stripGo]
  | succ fuel ih =>
    intro l
    cases l with
    | nil => simp [stripGo]
    | cons c cs =>
      simp only [stripGo]
      split
      · exact ((ih _).trans (List.drop_sublist _ _)).trans
          (List.sublist_cons_self _ _)
      · exact List.Sublist.cons₂ _ (ih cs)

theorem stripAll_sublist (m : List Char → Option Nat) (l : List Char) :
    (stripAll m l).Sublist l :=
  stripGo_sublist m l.length l

theorem stripGo_of_not_contains (m : List Char → Option Nat) :
    ∀ (l : List Char), containsMatchB m l = false →
      ∀ (fuel : Nat), stripGo m fuel l = l := by
  intro l
  induction l with
  | nil => intro _ fuel; cases fuel <;> simp [stripGo]
  | cons c cs ih =>
    intro h fuel
    simp only [containsMatchB, Bool.or_eq_false_iff] at h
    obtain ⟨h1, h2⟩ := h
    cases fuel with
    | zero => simp [stripGo]
    | succ fuel =>
      simp only [stripGo]
      cases hm : m (c :: cs) with
      | none => simp [ih h2 fuel]
      | some k => rw [hm] at h1; simp at h1

theorem stripAll_of_not_contains (m : List Char → Option Nat) (l : List Char)
    (h : containsMatchB m l = false) : stripAll m l = l :=
  stripGo_of_not_contains m l h l.length

/-- C2.  Counterexample: the event-handler strip is a single pass, so
on the string oonload=nload= the deletion of the one match splices the
remaining characters into onload=, a string that still matches the
on\w+\s*= pattern (and is returned as the accepted sanitized value). -/
theorem C2_counterexample :
    sanitizeString (.str "oonload=nload=") 500 = some "onload=" ∧
      containsEvt "onload=" = true := by
  constructor
  · rfl
  · rfl

/-- C2 (amended).  The sanitizer trims the input and truncates it to
the field maximum, then deletes script-tag and event-handler matches in
one left-to-right pass each: the accepted string is a subsequence of
the truncation, never exceeds the maximum length, and an input whose
truncation carries no match of either pattern is passed through
unchanged — but the output may still contain on*= (or script) patterns
spliced together by the deletions. -/
theorem C2_sanitize_amended (s : String) (maxLength : Nat) :
    (sanitizeStringCore s maxLength).data.Sublist ((jsTrim s).data.take maxLength) ∧
    (sanitizeStringCore s maxLength).length ≤ maxLength ∧
    (containsMatchB scriptMatchAt ((jsTrim s).data.take maxLength) = false →
     containsMatchB evtMatchAt ((jsTrim s).data.take maxLength) = false →
     sanitizeStringCore s maxLength = ⟨(jsTrim s).data.take maxLength⟩) := by
  refine ⟨?_, ?_, ?_⟩
  · exact (stripAll_sublist _ _).trans (stripAll_sublist _ _)
  · have h1 := ((stripAll_sublist evtMatchAt _).trans
      (stripAll_sublist scriptMatchAt ((jsTrim s).data.take maxLength))).length_le
    have h2 := List.length_take_le maxLength (jsTrim s).data
    exact le_trans h1 h2
  · intro hs he
    show (⟨_⟩ : String) = _
    rw [stripAll_of_not_contains _ _ hs, stripAll_of_not_contains _ _ he]

theorem C2_sanitize_amended_witness :
    sanitizeStringCore "  hello world  " 500 = "hello world" :=
  (C2_sanitize_amended "  hello world  " 500).2.2 (by decide) (by decide)

/-- C8.  Reordering the three-element todo sequence [A, B, C] with
fromIndex 0 and toIndex 2 returns the array [B, C, A] and stores it. -/
theorem C8_reorder (A B C : Todo) (cats : List Category) (tags : List Tag)
    (m : Bool) :
    reorderUserTodos ⟨[A, B, C], cats, tags, m⟩ 0 2 =
      ([some B, some C, some A], ⟨[B, C, A], cats, tags, m⟩) := rfl

/-- Upper bound of a clamped splice index. -/
theorem spliceIndex_le (start : Int) (len : Nat) : spliceIndex start len ≤ len := by
  unfold spliceIndex
  split <;> omega

/-- Behavior of spliceRemove-style indexing past the end: the clamp
lands on the length itself. -/
theorem spliceIndex_of_ge (start : Int) (len : Nat) (h : (len : Int) ≤ start) :
    spliceIndex start len = len := by
  unfold spliceIndex
  split <;> omega

/-- C10.  An out-of-range fromIndex makes the first splice remove
nothing, so undefined is inserted: the result is the original sequence
(as an array of defined entries) with an undefined hole at the clamped
toIndex, of length n + 1 — neither a no-op nor an error — and the
reorder action of the todos endpoint forwards any numeric pair to this
computation without bounds checks, storing and returning the result. -/
theorem C10_reorder_out_of_range (xs : List Todo) (fromIndex toIndex : Int)
    (h : (xs.length : Int) ≤ fromIndex) :
    jsReorder xs fromIndex toIndex =
      (xs.map some).take (spliceIndex toIndex xs.length) ++
        none :: (xs.map some).drop (spliceIndex toIndex xs.length) ∧
    (jsReorder xs fromIndex toIndex).length = xs.length + 1 ∧
    (0 ≤ toIndex → toIndex ≤ (xs.length : Int) →
      spliceIndex toIndex xs.length = toIndex.toNat) ∧
    (∀ (d : UserData) (newId now : String),
      todosPost d
          (.obj [("action", .str "reorder"), ("fromIndex", .num fromIndex),
            ("toIndex", .num toIndex)]) newId now =
        (⟨200, .todosArr (jsReorder d.todos fromIndex toIndex)⟩,
         { d with todos := (jsReorder d.todos fromIndex toIndex).filterMap id })) := by
  have hidx : spliceIndex fromIndex xs.length = xs.length := spliceIndex_of_ge _ _ h
  have hremoved : xs.get? (spliceIndex fromIndex xs.length) = none := by
    rw [hidx]; exact List.get?_eq_none.mpr (Nat.le_refl _)
  have hrest : xs.take (spliceIndex fromIndex xs.length) ++
      xs.drop (spliceIndex fromIndex xs.length + 1) = xs := by
    rw [hidx, List.take_length, List.drop_eq_nil_of_le (Nat.le_succ _),
      List.append_nil]
  have hmain : jsReorder xs fromIndex toIndex =
      (xs.map some).take (spliceIndex toIndex xs.length) ++
        none :: (xs.map some).drop (spliceIndex toIndex xs.length) := by
    simp only [jsReorder]
    rw [hremoved, hrest]
  refine ⟨hmain, ?_, ?_, ?_⟩
  · rw [hmain]
    have hle := spliceIndex_le toIndex xs.length
    simp only [List.length_append, List.length_cons, List.length_take,
      List.length_drop, List.length_map]
    omega
  · intro h0 hlen
    unfold spliceIndex
    split <;> omega
  · intro d newId now
    rfl

theorem C10_reorder_out_of_range_witness :
    (jsReorder [mkTodo "a" "A"] 5 0).length = [mkTodo "a" "A"].length + 1 :=
  (C10_reorder_out_of_range [mkTodo "a" "A"] 5 0 (by decide)).2.1

/-! ## Lemmas about the filter-based deletions -/

/-- Length strictly drops under filter exactly when some element is
dropped. -/
theorem filter_length_lt_iff (p : α → Bool) (l : List α) :
    (l.filter p).length < l.length ↔ ∃ x ∈ l, p x = false := by
  constructor
  · intro h
    by_contra hc
    push_neg at hc
    have hall : ∀ x ∈ l, p x := by
      intro x hx
      cases hpx : p x with
      | false => exact absurd hpx (hc x hx)
      | true => rfl
    rw [List.filter_eq_self.mpr hall] at h
    exact Nat.lt_irrefl _ h
  · rintro ⟨x, hx, hpx⟩
    rcases Nat.lt_or_ge (l.filter p).length l.length with h | h
    · exact h
    · have heq : (l.filter p).length = l.length :=
        Nat.le_antisymm (List.length_filter_le p l) h
      have := List.filter_length_eq_length.mp heq x hx
      rw [hpx] at this
      exact absurd this (by simp)

/-- Mapping a function which is the identity on every member is the
identity. -/
theorem map_id_of_mem (l : List α) (f : α → α) (h : ∀ x ∈ l, f x = x) :
    l.map f = l := by
  induction l with
  | nil => rfl
  | cons x xs ih =>
    rw [List.map_cons, h x (List.mem_cons_self x xs),
      ih (fun y hy => h y (List.mem_cons_of_mem x hy))]

/-- C6.  Counterexample: a todo can dangle on a category id absent from
the category collection (see the create-todo path), and deleting that
absent id then returns the not-found signal false while still mutating
the state — it clears the dangling reference. -/
theorem C6_counterexample :
    (deleteUserCategory danglingState "ghost").1 = false ∧
      (deleteUserCategory danglingState "ghost").2 ≠ danglingState := by
  constructor
  · rfl
  · decide

/-- C6 (amended).  Deleting an existing category id returns true,
removes every category with that id, keeps all todos, clears exactly
the matching categoryId references to null and touches nothing else;
deleting an absent id returns false and leaves the category collection
unchanged, and leaves the whole state unchanged provided no todo held a
dangling reference to that id (such a dangling reference is still
cleared despite the false return). -/
theorem C6_deleteUserCategory_amended (d : UserData) (categoryId : String) :
    ((∃ cat ∈ d.categories, cat.id = categoryId) →
      (deleteUserCategory d categoryId).1 = true ∧
      (∀ cat ∈ (deleteUserCategory d categoryId).2.categories,
        cat.id ≠ categoryId) ∧
      (deleteUserCategory d categoryId).2.todos.length = d.todos.length ∧
      (∀ t ∈ (deleteUserCategory d categoryId).2.todos,
        t.categoryId ≠ some categoryId) ∧
      (∀ i (hi : i < d.todos.length)
          (hi2 : i < (deleteUserCategory d categoryId).2.todos.length),
        (deleteUserCategory d categoryId).2.todos.get ⟨i, hi2⟩ =
          (if (d.todos.get ⟨i, hi⟩).categoryId = some categoryId
           then { d.todos.get ⟨i, hi⟩ with categoryId := none }
           else d.todos.get ⟨i, hi⟩)) ∧
      (deleteUserCategory d categoryId).2.tags = d.tags ∧
      (deleteUserCategory d categoryId).2.migrated = d.migrated) ∧
    ((∀ cat ∈ d.categories, cat.id ≠ categoryId) →
      (deleteUserCategory d categoryId).1 = false ∧
      (deleteUserCategory d categoryId).2.categories = d.categories ∧
      ((∀ t ∈ d.todos, t.categoryId ≠ some categoryId) →
        (deleteUserCategory d categoryId).2 = d)) := by
  constructor
  · rintro ⟨cat, hmem, hid⟩
    refine ⟨?_, ?_, ?_, ?_, ?_, rfl, rfl⟩
    · show decide _ = true
      rw [decide_eq_true_eq, filter_length_lt_iff]
      exact ⟨cat, hmem, by simp [hid]⟩
    · intro c hc
      simp only [deleteUserCategory] at hc
      have := (List.mem_filter.mp hc).2
      simpa using this
    · exact List.length_map _ _
    · intro t ht
      simp only [deleteUserCategory] at ht
      obtain ⟨t0, _, hft⟩ := List.mem_map.mp ht
      by_cases hcase : t0.categoryId == some categoryId
      · rw [if_pos hcase] at hft
        rw [← hft]
        simp
      · rw [if_neg hcase] at hft
        rw [← hft]
        simpa using hcase
    · intro i hi hi2
      show (d.todos.map _).get _ = _
      rw [List.get_eq_getElem, List.get_eq_getElem, List.getElem_map]
      by_cases hcase : d.todos[i].categoryId = some categoryId
      · rw [if_pos (by simpa using hcase), if_pos hcase]
      · rw [if_neg (by simpa using hcase), if_neg hcase]
  · intro hnone
    have hcats : d.categories.filter (fun c => !(c.id == categoryId)) =
        d.categories := by
      rw [List.filter_eq_self]
      intro c hc
      simpa using hnone c hc
    refine ⟨?_, ?_, ?_⟩
    · show decide _ = false
      rw [decide_eq_false_iff_not, hcats]
      exact Nat.lt_irrefl _
    · show d.categories.filter _ = d.categories
      exact hcats
    · intro htodos
      show (⟨_, _, _, _⟩ : UserData) = d
      rw [hcats, map_id_of_mem]
      intro t ht
      rw [if_neg (by simpa using htodos t ht)]

theorem C6_deleteUserCategory_amended_witness :
    ((deleteUserCategory
        ⟨[⟨"t", "x", false, some "c1", [], "", ""⟩],
         [⟨"c1", "n", "i", "#112233"⟩], [], false⟩ "c1").1 = true ∧
      (deleteUserCategory emptyState "c1").1 = false) := by
  constructor
  · exact ((C6_deleteUserCategory_amended
      ⟨[⟨"t", "x", false, some "c1", [], "", ""⟩],
       [⟨"c1", "n", "i", "#112233"⟩], [], false⟩ "c1").1
      ⟨⟨"c1", "n", "i", "#112233"⟩, by decide, rfl⟩).1
  · exact ((C6_deleteUserCategory_amended emptyState "c1").2 (by decide)).1

/-- C7.  Deleting an existing tag id returns true, removes the tag from
the tag collection and from every todo's tag set, and an immediately
repeated deletion of the same id returns false and changes nothing:
double deletion leaves exactly the state of single deletion. -/
theorem C7_deleteUserTag (d : UserData) (tagId : String)
    (h : ∃ tg ∈ d.tags, tg.id = tagId) :
    (deleteUserTag d tagId).1 = true ∧
    (∀ tg ∈ (deleteUserTag d tagId).2.tags, tg.id ≠ tagId) ∧
    (∀ t ∈ (deleteUserTag d tagId).2.todos, tagId ∉ t.tags) ∧
    deleteUserTag (deleteUserTag d tagId).2 tagId =
      (false, (deleteUserTag d tagId).2) := by
  obtain ⟨tg, hmem, hid⟩ := h
  refine ⟨?_, ?_, ?_, ?_⟩
  · simp only [deleteUserTag]
    rw [decide_eq_true_eq, filter_length_lt_iff]
    exact ⟨tg, hmem, by simp [hid]⟩
  · intro t ht
    simp only [deleteUserTag] at ht
    have := (List.mem_filter.mp ht).2
    simpa using this
  · intro t ht
    simp only [deleteUserTag] at ht
    obtain ⟨t0, _, hft⟩ := List.mem_map.mp ht
    intro hmem2
    rw [← hft] at hmem2
    have := (List.mem_filter.mp hmem2).2
    simp at this
  · have htags : (deleteUserTag d tagId).2.tags.filter
        (fun t => !(t.id == tagId)) = (deleteUserTag d tagId).2.tags := by
      rw [List.filter_eq_self]
      intro t ht
      simp only [deleteUserTag] at ht
      exact (List.mem_filter.mp ht).2
    have htodos : (deleteUserTag d tagId).2.todos.map (fun todo =>
        { todo with tags := todo.tags.filter (fun t => !(t == tagId)) }) =
        (deleteUserTag d tagId).2.todos := by
      apply map_id_of_mem
      intro t ht
      simp only [deleteUserTag] at ht
      obtain ⟨t0, _, hft⟩ := List.mem_map.mp ht
      rw [← hft]
      simp only []
      rw [List.filter_filter]
      congr 1
      apply List.filter_congr
      intro x _
      simp [Bool.and_self]
    show (decide _, _) = _
    rw [htags, htodos]
    refine Prod.ext ?_ rfl
    · simp only [htags]
      simp

theorem C7_deleteUserTag_witness :
    deleteUserTag
        (deleteUserTag
          ⟨[⟨"t", "x", false, none, ["g1", "g2"], "", ""⟩], [],
           [⟨"g1", "n", "#112233"⟩], false⟩ "g1").2 "g1" =
      (false,
       (deleteUserTag
          ⟨[⟨"t", "x", false, none, ["g1", "g2"], "", ""⟩], [],
           [⟨"g1", "n", "#112233"⟩], false⟩ "g1").2) :=
  (C7_deleteUserTag
    ⟨[⟨"t", "x", false, none, ["g1", "g2"], "", ""⟩], [],
     [⟨"g1", "n", "#112233"⟩], false⟩ "g1"
    ⟨⟨"g1", "n", "#112233"⟩, by decide, rfl⟩).2.2.2

/-- C9.  Updating by id: when no todo carries the id the operation is a
no-op returning the not-found signal null; when one does, the first
such todo is replaced in place by the merge of the validated fields
over it, the merge keeps id and createdAt, stamps updatedAt to now,
takes each named field from the update and each unnamed field from the
existing todo, and the merged todo is returned. -/
theorem C9_updateUserTodo (d : UserData) (todoId : String) (u : TodoUpdate)
    (now : String) :
    ((∀ t ∈ d.todos, t.id ≠ todoId) →
      updateUserTodo d todoId u now = (none, d)) ∧
    (∀ i (hi : i < d.todos.length),
      (d.todos.get ⟨i, hi⟩).id = todoId →
      (∀ j (hj : j < d.todos.length), j < i →
        (d.todos.get ⟨j, hj⟩).id ≠ todoId) →
      updateUserTodo d todoId u now =
        (some (applyUpdate (d.todos.get ⟨i, hi⟩) u now),
         { d with
            todos := d.todos.set i (applyUpdate (d.todos.get ⟨i, hi⟩) u now) }) ∧
      (applyUpdate (d.todos.get ⟨i, hi⟩) u now).id =
        (d.todos.get ⟨i, hi⟩).id ∧
      (applyUpdate (d.todos.get ⟨i, hi⟩) u now).createdAt =
        (d.todos.get ⟨i, hi⟩).createdAt ∧
      (applyUpdate (d.todos.get ⟨i, hi⟩) u now).updatedAt = now ∧
      (u.title = none → (applyUpdate (d.todos.get ⟨i, hi⟩) u now).title =
        (d.todos.get ⟨i, hi⟩).title) ∧
      (u.completed = none → (applyUpdate (d.todos.get ⟨i, hi⟩) u now).completed =
        (d.todos.get ⟨i, hi⟩).completed) ∧
      (u.categoryId = none → (applyUpdate (d.todos.get ⟨i, hi⟩) u now).categoryId =
        (d.todos.get ⟨i, hi⟩).categoryId) ∧
      (u.tags = none → (applyUpdate (d.todos.get ⟨i, hi⟩) u now).tags =
        (d.todos.get ⟨i, hi⟩).tags) ∧
      (∀ x, u.title = some x →
        (applyUpdate (d.todos.get ⟨i, hi⟩) u now).title = x) ∧
      (∀ x, u.completed = some x →
        (applyUpdate (d.todos.get ⟨i, hi⟩) u now).completed = x) ∧
      (∀ x, u.categoryId = some x →
        (applyUpdate (d.todos.get ⟨i, hi⟩) u now).categoryId = x) ∧
      (∀ x, u.tags = some x →
        (applyUpdate (d.todos.get ⟨i, hi⟩) u now).tags = x)) := by
  constructor
  · intro hall
    have hfind : d.todos.findIdx (fun t => t.id == todoId) = d.todos.length :=
      List.findIdx_eq_length.mpr (fun x hx => by simpa using hall x hx)
    simp only [updateUserTodo]
    rw [dif_neg (by rw [hfind]; exact Nat.lt_irrefl _)]
  · intro i hi hmatch hbefore
    have hfind : d.todos.findIdx (fun t => t.id == todoId) = i := by
      rw [List.findIdx_eq hi]
      constructor
      · simpa [List.get_eq_getElem] using hmatch
      · intro j hj
        simpa [List.get_eq_getElem] using
          hbefore j (Nat.lt_trans hj hi) hj
    subst hfind
    refine ⟨?_, rfl, rfl, rfl, ?_, ?_, ?_, ?_, ?_, ?_, ?_, ?_⟩
    · simp only [updateUserTodo]
      rw [dif_pos hi]
    · intro h; simp [applyUpdate, h]
    · intro h; simp [applyUpdate, h]
    · intro h; simp [applyUpdate, h]
    · intro h; simp [applyUpdate, h]
    · intro x h; simp [applyUpdate, h]
    · intro x h; simp [applyUpdate, h]
    · intro x h; simp [applyUpdate, h]
    · intro x h; simp [applyUpdate, h]

theorem C9_updateUserTodo_witness :
    updateUserTodo pairState "b" titleUpd now0 =
      (some (applyUpdate (pairState.todos.get ⟨1, by decide⟩) titleUpd now0),
       { pairState with
          todos := pairState.todos.set 1
            (applyUpdate (pairState.todos.get ⟨1, by decide⟩) titleUpd now0) }) ∧
    updateUserTodo pairState "zz" titleUpd now0 = (none, pairState) :=
  ⟨((C9_updateUserTodo pairState "b" titleUpd now0).2 1 (by decide) (by decide)
      (by decide)).1,
   (C9_updateUserTodo pairState "zz" titleUpd now0).1 (by decide)⟩

/-! ## Lemmas about the bulk state validation -/

/-- Shape of a successfully returned bulk payload: the cross-fixed
per-item-valid todos together with the per-item-valid categories and
tags. -/
theorem validateTodoState_data_eq (dateParse : String → Option String)
    (now : String) (v : JsValue) (p : TodoState)
    (h : (validateTodoState dateParse now v).data = some p) :
    p = ⟨(collectLoop (validateTodo dateParse now) "Todo" 0
            ((jsElems (jsGet v "todos")).take MAX_TODOS)).1.map
          (crossFix
            ((collectLoop validateCategory "Category" 0
                ((jsElems (jsGet v "categories")).take MAX_CATEGORIES)).1.map (·.id))
            ((collectLoop validateTag "Tag" 0
                ((jsElems (jsGet v "tags")).take MAX_TAGS)).1.map (·.id))),
         (collectLoop validateCategory "Category" 0
            ((jsElems (jsGet v "categories")).take MAX_CATEGORIES)).1,
         (collectLoop validateTag "Tag" 0
            ((jsElems (jsGet v "tags")).take MAX_TAGS)).1⟩ := by
  cases hguard : (!jsTruthy v || !jsTypeofObject v) with
  | true => simp [validateTodoState, hguard] at h
  | false =>
    simp only [validateTodoState, hguard, Bool.false_eq_true, if_false,
      Option.some.injEq] at h
    exact h.symm

/-- C4.  Counterexample: on a non-object input (here null, seen whenever
the request body is not a JSON object) the bulk validation does fail
outright — valid is false and no payload is returned, so not every
input value yields a usable sanitized payload. -/
theorem C4_counterexample :
    (validateTodoState dateParse0 now0 .null).valid = false ∧
    (validateTodoState dateParse0 now0 .null).data = none ∧
    (validateTodoState dateParse0 now0 .null).errors =
      ["State must be an object"] :=
  ⟨rfl, rfl, rfl⟩

/-- C4 (amended).  For every truthy input of JS type object (any actual
object or array), bulk validation returns valid with a usable possibly
empty payload, accumulating per-item rejections as warnings; only
non-object inputs fail outright.  In particular a state with one
invalid todo (empty title) and two valid todos yields exactly the two
valid todos and the one warning naming index 0. -/
theorem C4_validateTodoState_amended :
    (∀ (dateParse : String → Option String) (now : String) (v : JsValue),
      jsTruthy v = true → jsTypeofObject v = true →
      (validateTodoState dateParse now v).valid = true ∧
      (validateTodoState dateParse now v).data.isSome = true) ∧
    ((validateTodoState dateParse0 now0 mixedImportState).valid = true ∧
     (validateTodoState dateParse0 now0 mixedImportState).data =
       some mixedPayload ∧
     (validateTodoState dateParse0 now0 mixedImportState).errors =
       ["Todo at index 0: Invalid or missing todo title"]) := by
  constructor
  · intro dateParse now v h1 h2
    constructor <;>
      · simp only [validateTodoState, h1, h2]
        rfl
  · exact ⟨rfl, rfl, rfl⟩

theorem C4_validateTodoState_amended_witness :
    (validateTodoState dateParse0 now0 (.obj [])).valid = true :=
  (C4_validateTodoState_amended.1 dateParse0 now0 (.obj []) rfl rfl).1

/-- C5.  In a returned bulk payload every per-item-valid todo is kept
(the todo count equals the count of per-item-valid todos, with id,
title, completed and timestamps preserved position by position); a
categoryId that does not occur among the returned categories is set to
null while a resolvable one is kept, and exactly the tag entries
occurring among the returned tags survive in each tag set. -/
theorem C5_cross_validation (dateParse : String → Option String) (now : String)
    (v : JsValue) (p : TodoState)
    (h : (validateTodoState dateParse now v).data = some p) :
    p.todos.length =
      (collectLoop (validateTodo dateParse now) "Todo" 0
        ((jsElems (jsGet v "todos")).take MAX_TODOS)).1.length ∧
    ∀ i (hi : i < p.todos.length)
      (hi2 : i < (collectLoop (validateTodo dateParse now) "Todo" 0
        ((jsElems (jsGet v "todos")).take MAX_TODOS)).1.length),
      let t0 := (collectLoop (validateTodo dateParse now) "Todo" 0
        ((jsElems (jsGet v "todos")).take MAX_TODOS)).1.get ⟨i, hi2⟩
      let t1 := p.todos.get ⟨i, hi⟩
      t1.id = t0.id ∧ t1.title = t0.title ∧ t1.completed = t0.completed ∧
      t1.createdAt = t0.createdAt ∧ t1.updatedAt = t0.updatedAt ∧
      (t1.categoryId =
        match t0.categoryId with
        | some c =>
          if (p.categories.map (·.id)).contains c then some c else none
        | none => none) ∧
      t1.tags = t0.tags.filter (fun g => (p.tags.map (·.id)).contains g) := by
  have hp := validateTodoState_data_eq dateParse now v p h
  subst hp
  refine ⟨by simp, ?_⟩
  intro i hi hi2
  simp only [List.get_eq_getElem, List.getElem_map]
  exact ⟨rfl, rfl, rfl, rfl, rfl, rfl, rfl⟩

theorem C5_cross_validation_witness :
    mixedPayload.todos.length =
      (collectLoop (validateTodo dateParse0 now0) "Todo" 0
        ((jsElems (jsGet mixedImportState "todos")).take MAX_TODOS)).1.length :=
  (C5_cross_validation dateParse0 now0 mixedImportState mixedPayload rfl).1

/-! ## Referential-integrity lemmas -/

/-- Cross-fixed todos always resolve against the collections the fix
was computed from. -/
theorem refOk_crossFix (todos : List Todo) (cats : List Category)
    (tags : List Tag) :
    refOk (todos.map (crossFix (cats.map (·.id)) (tags.map (·.id))))
      cats tags = true := by
  rw [refOk, List.all_eq_true]
  intro t ht
  obtain ⟨t0, _, hft⟩ := List.mem_map.mp ht
  rw [← hft, Bool.and_eq_true]
  constructor
  · cases hc : t0.categoryId with
    | none => simp [crossFix, hc]
    | some c =>
      simp only [crossFix, hc]
      by_cases hmem : (cats.map (·.id)).contains c
      · rw [if_pos hmem]
        have hcmem : c ∈ cats.map (·.id) := by simpa using hmem
        obtain ⟨cat, hcat, hcid⟩ := List.mem_map.mp hcmem
        show cats.any _ = true
        rw [List.any_eq_true]
        exact ⟨cat, hcat, by simp [hcid]⟩
      · rw [if_neg hmem]
  · show List.all (t0.tags.filter _) _ = true
    rw [List.all_eq_true]
    intro g hg
    have hgmem : g ∈ tags.map (·.id) := by
      simpa using (List.mem_filter.mp hg).2
    obtain ⟨tg, htg, htgid⟩ := List.mem_map.mp hgmem
    rw [List.any_eq_true]
    exact ⟨tg, htg, by simp [htgid]⟩

/-- C1.  Counterexample: the create-todo endpoint only format-checks
categoryId, so creating a todo with the well-formed but nonexistent
category id ghost completes with 201 and leaves a state whose stored
todo references no existing category — referential integrity does not
hold after every mutation. -/
theorem C1_counterexample :
    (todosPost emptyState ghostBody "id1" now0).1.status = 201 ∧
      refOkState (todosPost emptyState ghostBody "id1" now0).2 = false :=
  ⟨rfl, rfl⟩

/-- C1 (amended).  Referential integrity is established by the
bulk import (every payload the bulk validation returns is internally
consistent, hence so is the state importUserData stores) and preserved
by the cascading category and tag deletes; the create-todo and
update-todo paths check only the format of categoryId and tag ids, not
their existence, and can therefore break it. -/
theorem C1_referential_integrity_amended :
    (∀ (dateParse : String → Option String) (now : String) (v : JsValue)
        (p : TodoState),
      (validateTodoState dateParse now v).data = some p →
      refOkPayload p = true) ∧
    (∀ (d : UserData) (p : TodoState), refOkPayload p = true →
      refOkState (importUserData d p) = true) ∧
    (∀ (d : UserData) (c : String), refOkState d = true →
      refOkState (deleteUserCategory d c).2 = true) ∧
    (∀ (d : UserData) (g : String), refOkState d = true →
      refOkState (deleteUserTag d g).2 = true) := by
  refine ⟨?_, ?_, ?_, ?_⟩
  · intro dateParse now v p h
    rw [validateTodoState_data_eq dateParse now v p h]
    exact refOk_crossFix _ _ _
  · intro d p h
    exact h
  · intro d c h
    simp only [refOkState, refOk, List.all_eq_true] at h ⊢
    intro t ht
    simp only [deleteUserCategory] at ht
    obtain ⟨t0, ht0, hft⟩ := List.mem_map.mp ht
    have hb := h t0 ht0
    rw [Bool.and_eq_true] at hb
    rw [← hft, Bool.and_eq_true]
    constructor
    · by_cases hcase : t0.categoryId == some c
      · rw [if_pos hcase]
      · rw [if_neg hcase]
        cases hc2 : t0.categoryId with
        | none => rfl
        | some c2 =>
          rw [hc2] at hb
          obtain ⟨cat, hcat, hcatid⟩ := List.any_eq_true.mp hb.1
          show ((deleteUserCategory d c).2.categories).any _ = true
          simp only [deleteUserCategory]
          rw [List.any_eq_true]
          refine ⟨cat, List.mem_filter.mpr ⟨hcat, ?_⟩, hcatid⟩
          have h1 : cat.id = c2 := by simpa using hcatid
          have h2 : c2 ≠ c := by
            intro hcc
            rw [hc2, hcc] at hcase
            simp at hcase
          simp [h1, h2]
    · by_cases hcase : t0.categoryId == some c
      · rw [if_pos hcase]
        exact hb.2
      · rw [if_neg hcase]
        exact hb.2
  · intro d g h
    simp only [refOkState, refOk, List.all_eq_true] at h ⊢
    intro t ht
    simp only [deleteUserTag] at ht
    obtain ⟨t0, ht0, hft⟩ := List.mem_map.mp ht
    have hb := h t0 ht0
    rw [Bool.and_eq_true] at hb
    rw [← hft, Bool.and_eq_true]
    constructor
    · exact hb.1
    · show List.all (t0.tags.filter _) _ = true
      rw [List.all_eq_true]
      intro g2 hg2
      have hmem := List.mem_filter.mp hg2
      have hb2 := List.all_eq_true.mp hb.2 g2 hmem.1
      obtain ⟨tg, htg, htgid⟩ := List.any_eq_true.mp hb2
      show ((deleteUserTag d g).2.tags).any _ = true
      simp only [deleteUserTag]
      rw [List.any_eq_true]
      refine ⟨tg, List.mem_filter.mpr ⟨htg, ?_⟩, htgid⟩
      have h1 : tg.id = g2 := by simpa using htgid
      have h2 : g2 ≠ g := by simpa using hmem.2
      simp [h1, h2]

theorem C1_referential_integrity_amended_witness :
    refOkPayload mixedPayload = true ∧
    refOkState (importUserData emptyState mixedPayload) = true ∧
    refOkState (deleteUserTag
      ⟨[⟨"t", "x", false, none, ["g1"], "", ""⟩], [],
       [⟨"g1", "n", "#112233"⟩], false⟩ "g1").2 = true :=
  ⟨C1_referential_integrity_amended.1 dateParse0 now0 mixedImportState
      mixedPayload rfl,
   C1_referential_integrity_amended.2.1 emptyState mixedPayload (by decide),
   C1_referential_integrity_amended.2.2.2
     ⟨[⟨"t", "x", false, none, ["g1"], "", ""⟩], [],
      [⟨"g1", "n", "#112233"⟩], false⟩ "g1" (by decide)⟩

/-! ## Lemmas about the migrated flag -/

theorem migrated_todosPost (d : UserData) (body : JsValue) (newId now : String) :
    (todosPost d body newId now).2.migrated = d.migrated := by
  simp only [todosPost]
  split
  · split
    · rfl
    · rfl
  · split
    · rfl
    · rfl

theorem migrated_todoPut (d : UserData) (id : String) (body : JsValue)
    (now : String) : (todoPut d id body now).2.migrated = d.migrated := by
  simp only [todoPut, updateUserTodo]
  split
  · rfl
  · split
    · split
      · rfl
      · rfl
    · split
      · rfl
      · rfl

theorem migrated_todoDelete (d : UserData) (id : String) :
    (todoDelete d id).2.migrated = d.migrated := by
  simp only [todoDelete]
  split
  · rfl
  · rfl

theorem migrated_categoriesPost (d : UserData) (body : JsValue)
    (newId : String) : (categoriesPost d body newId).2.migrated = d.migrated := by
  simp only [categoriesPost]
  split
  · rfl
  · rfl

theorem migrated_categoryDelete (d : UserData) (id : String) :
    (categoryDelete d id).2.migrated = d.migrated := by
  simp only [categoryDelete]
  split
  · rfl
  · rfl

theorem migrated_tagsPost (d : UserData) (body : JsValue) (newId : String) :
    (tagsPost d body newId).2.migrated = d.migrated := by
  simp only [tagsPost]
  split
  · rfl
  · rfl

theorem migrated_tagDelete (d : UserData) (id : String) :
    (tagDelete d id).2.migrated = d.migrated := by
  simp only [tagDelete]
  split
  · rfl
  · rfl

theorem migrated_todoGet (d : UserData) (id : String) :
    (todoGet d id).2.migrated = d.migrated := by
  simp only [todoGet]
  split
  · rfl
  · rfl

/-- C3.  Counterexample: the store itself offers operations that move
the migrated flag outside the bulk import — setUserMigrated flips it to
true without importing anything, and setUserData with a migrated patch
sets an already-migrated user back to false. -/
theorem C3_counterexample :
    (setUserMigrated emptyState).migrated = true ∧
      (setUserData ⟨[], [], [], true⟩ ⟨none, none, none, some false⟩).migrated =
        false :=
  ⟨rfl, rfl⟩

/-- C3 (amended).  Across the API endpoints the claim holds: no request
ever moves migrated from true back to false, the only request that can
change the flag at all is the bulk-import POST of the data endpoint
(false to true), and once migrated is true a further migration attempt
is answered with status 400, the message that data is already migrated,
and a completely unchanged state.  The store additionally exports
setUserMigrated and setUserData, which can move the flag outside the
bulk import, but no endpoint calls them. -/
theorem C3_migration_amended (dateParse : String → Option String)
    (now : String) (d : UserData) :
    (∀ op : ApiOp, d.migrated = true →
      ((apiStep dateParse now d op).2).migrated = true) ∧
    (∀ op : ApiOp, ((apiStep dateParse now d op).2).migrated ≠ d.migrated →
      ∃ body, op = .opDataPost body) ∧
    (d.migrated = true → ∀ body,
      apiStep dateParse now d (.opDataPost body) =
        (⟨400, .msg "Data already migrated"⟩, d)) := by
  have hDataPost : ∀ body, d.migrated = true →
      dataPost dateParse now d body = (⟨400, .msg "Data already migrated"⟩, d) := by
    intro body hm
    simp only [dataPost, hasUserMigrated, hm]
    rfl
  refine ⟨?_, ?_, fun hm body => hDataPost body hm⟩
  · intro op hm
    cases op with
    | opDataGet => exact hm
    | opDataPost body =>
      show (dataPost dateParse now d body).2.migrated = true
      rw [hDataPost body hm]
      exact hm
    | opTodosGet => exact hm
    | opTodosPost body newId =>
      show (todosPost d body newId now).2.migrated = true
      rw [migrated_todosPost]
      exact hm
    | opTodoGet id =>
      show (todoGet d id).2.migrated = true
      rw [migrated_todoGet]
      exact hm
    | opTodoPut id body =>
      show (todoPut d id body now).2.migrated = true
      rw [migrated_todoPut]
      exact hm
    | opTodoDelete id =>
      show (todoDelete d id).2.migrated = true
      rw [migrated_todoDelete]
      exact hm
    | opCategoriesGet => exact hm
    | opCategoriesPost body newId =>
      show (categoriesPost d body newId).2.migrated = true
      rw [migrated_categoriesPost]
      exact hm
    | opCategoryDelete id =>
      show (categoryDelete d id).2.migrated = true
      rw [migrated_categoryDelete]
      exact hm
    | opTagsGet => exact hm
    | opTagsPost body newId =>
      show (tagsPost d body newId).2.migrated = true
      rw [migrated_tagsPost]
      exact hm
    | opTagDelete id =>
      show (tagDelete d id).2.migrated = true
      rw [migrated_tagDelete]
      exact hm
  · intro op hne
    cases op with
    | opDataGet => exact absurd rfl hne
    | opDataPost body => exact ⟨body, rfl⟩
    | opTodosGet => exact absurd rfl hne
    | opTodosPost body newId =>
      exact absurd (migrated_todosPost d body newId now) hne
    | opTodoGet id => exact absurd (migrated_todoGet d id) hne
    | opTodoPut id body => exact absurd (migrated_todoPut d id body now) hne
    | opTodoDelete id => exact absurd (migrated_todoDelete d id) hne
    | opCategoriesGet => exact absurd rfl hne
    | opCategoriesPost body newId =>
      exact absurd (migrated_categoriesPost d body newId) hne
    | opCategoryDelete id => exact absurd (migrated_categoryDelete d id) hne
    | opTagsGet => exact absurd rfl hne
    | opTagsPost body newId => exact absurd (migrated_tagsPost d body newId) hne
    | opTagDelete id => exact absurd (migrated_tagDelete d id) hne

theorem C3_migration_amended_witness :
    apiStep dateParse0 now0 ⟨[], [], [], true⟩ (.opDataPost .null) =
      (⟨400, .msg "Data already migrated"⟩, ⟨[], [], [], true⟩) :=
  (C3_migration_amended dateParse0 now0 ⟨[], [], [], true⟩).2.2 rfl .null

end Tasks
